import Mathlib

/-!
Verification of the email content analysis pipeline and its caching layer.

This file gives a shallow embedding, in Lean 4, of the core of the
repository: `backend/app/services/ai_service.py` (the analysis
orchestrator `analyze_email_content` and its sub-analyzers) and
`backend/app/utils/caching.py` (cache key generation, the cache
decorator, and invalidation).

Modelling conventions:
* Python strings are modelled as Lean `String` / `List Char`; the string
  helpers below (`lowerChars`, `pyStrip`, `splitOnChar`, `containsSub`,
  ...) transcribe the exact Python operations used by the source
  (`str.lower`, `str.strip`, `str.split`, the `in` operator, slicing).
  Character-level operations are faithful for ASCII text, which is the
  alphabet the source's keyword heuristics operate on.
* Python floats are modelled as exact rationals `ℚ`; the heuristics of
  the source only add and compare small decimal constants.
* External effects (the OpenAI chat endpoint, the transformers sentiment
  model, spaCy, and the Redis client) are modelled as explicit outcome
  parameters: a call either returns a value or raises, which is an
  `Except PyErr` value.  The exception hierarchy that matters to the
  source's `except` clauses is encoded in `PyErr`.
* `hashlib.md5` is implemented in full (RFC 1321) so that cache keys are
  computed exactly; the implementation below reproduces the standard
  digests for the RFC test vectors.
-/

/-! ## Python string primitives -/

/-- Python `str.lower()` on the character list of a string (ASCII case
mapping, as performed by `Char.toLower`). -/
def lowerChars (s : String) : List Char := s.toList.map Char.toLower

/-- Python whitespace for `str.strip()` with no argument. -/
def pyIsSpace (c : Char) : Bool :=
  c = ' ' || c = '\t' || c = '\n' || c = '\x0d' || c = '\x0b' || c = '\x0c'

/-- Python `str.strip()`: drop whitespace from both ends. -/
def pyStrip (l : List Char) : List Char :=
  ((l.dropWhile pyIsSpace).reverse.dropWhile pyIsSpace).reverse

/-- Python `str.split(sep)` for a one-character separator. -/
def splitOnChar (sep : Char) : List Char → List (List Char)
  | [] => [[]]
  | c :: rest =>
    let r := splitOnChar sep rest
    if c = sep then [] :: r
    else
      match r with
      | [] => [[c]]
      | h :: t => (c :: h) :: t

/-- Python `needle in hay` on strings: substring containment. -/
def containsSub (w : List Char) : List Char → Bool
  | [] => w.isEmpty
  | c :: rest => w.isPrefixOf (c :: rest) || containsSub w rest

/-- Python `any(word in hay for word in ws)`. -/
def containsAny (hay : List Char) (ws : List String) : Bool :=
  ws.any fun w => containsSub w.toList hay

/-- Python `min` on two floats (returns the first argument on ties). -/
def pymin (a b : ℚ) : ℚ := if a ≤ b then a else b

/-- Python `max` on two floats (returns the first argument on ties). -/
def pymax (a b : ℚ) : ℚ := if b ≤ a then a else b

/-- Python code-point comparison `s < t`, the string order used by
`sorted` (lexicographic on code points), as a computable Bool. -/
def listLtB : List Char → List Char → Bool
  | [], [] => false
  | [], _ :: _ => true
  | _ :: _, [] => false
  | a :: as, b :: bs =>
    if a.toNat < b.toNat then true
    else if b.toNat < a.toNat then false
    else listLtB as bs

/-! ## MD5 (RFC 1321), as used by `hashlib.md5` in `generate_cache_key` -/

/-- Modulus for 32-bit words. -/
def md5Mod : Nat := 4294967296

/-- All-ones 32-bit mask, used for bitwise complement. -/
def md5Mask : Nat := 4294967295

/-- Per-round left-rotation amounts. -/
def md5S : List Nat :=
  [7, 12, 17, 22, 7, 12, 17, 22, 7, 12, 17, 22, 7, 12, 17, 22,
   5, 9, 14, 20, 5, 9, 14, 20, 5, 9, 14, 20, 5, 9, 14, 20,
   4, 11, 16, 23, 4, 11, 16, 23, 4, 11, 16, 23, 4, 11, 16, 23,
   6, 10, 15, 21, 6, 10, 15, 21, 6, 10, 15, 21, 6, 10, 15, 21]

/-- Round constants: floor(abs(sin(i+1)) * 2^32). -/
def md5K : List Nat :=
  [0xd76aa478, 0xe8c7b756, 0x242070db, 0xc1bdceee,
   0xf57c0faf, 0x4787c62a, 0xa8304613, 0xfd469501,
   0x698098d8, 0x8b44f7af, 0xffff5bb1, 0x895cd7be,
   0x6b901122, 0xfd987193, 0xa679438e, 0x49b40821,
   0xf61e2562, 0xc040b340, 0x265e5a51, 0xe9b6c7aa,
   0xd62f105d, 0x02441453, 0xd8a1e681, 0xe7d3fbc8,
   0x21e1cde6, 0xc33707d6, 0xf4d50d87, 0x455a14ed,
   0xa9e3e905, 0xfcefa3f8, 0x676f02d9, 0x8d2a4c8a,
   0xfffa3942, 0x8771f681, 0x6d9d6122, 0xfde5380c,
   0xa4beea44, 0x4bdecfa9, 0xf6bb4b60, 0xbebfbc70,
   0x289b7ec6, 0xeaa127fa, 0xd4ef3085, 0x04881d05,
   0xd9d4d039, 0xe6db99e5, 0x1fa27cf8, 0xc4ac5665,
   0xf4292244, 0x432aff97, 0xab9423a7, 0xfc93a039,
   0x655b59c3, 0x8f0ccc92, 0xffeff47d, 0x85845dd1,
   0x6fa87e4f, 0xfe2ce6e0, 0xa3014314, 0x4e0811a1,
   0xf7537e82, 0xbd3af235, 0x2ad7d2bb, 0xeb86d391]

/-- 32-bit left rotation. -/
def rotl32 (x s : Nat) : Nat :=
  (((x % md5Mod) <<< s) % md5Mod) ||| ((x % md5Mod) >>> (32 - s))

/-- Little-endian byte decomposition of `n` into `k` bytes. -/
def leBytes : Nat → Nat → List Nat
  | _, 0 => []
  | n, k + 1 => (n % 256) :: leBytes (n / 256) k

/-- Group a byte list into 32-bit little-endian words. -/
def md5Words : List Nat → List Nat
  | b0 :: b1 :: b2 :: b3 :: rest =>
      (b0 + 256 * (b1 + 256 * (b2 + 256 * b3))) :: md5Words rest
  | _ => []

/-- Split a list into blocks of 64, with an explicit fuel argument so the
definition is structural and kernel-reducible. -/
def chunk64Go : Nat → List Nat → List (List Nat)
  | 0, _ => []
  | _, [] => []
  | fuel + 1, l => l.take 64 :: chunk64Go fuel (l.drop 64)

/-- One MD5 round applied to the state `(a, b, c, d)`. -/
def md5Step (w : List Nat) (st : Nat × Nat × Nat × Nat) (i : Nat) :
    Nat × Nat × Nat × Nat :=
  let a := st.1
  let b := st.2.1
  let c := st.2.2.1
  let d := st.2.2.2
  let fg : Nat × Nat :=
    if i < 16 then ((b &&& c) ||| ((b ^^^ md5Mask) &&& d), i)
    else if i < 32 then ((d &&& b) ||| ((d ^^^ md5Mask) &&& c), (5 * i + 1) % 16)
    else if i < 48 then (b ^^^ c ^^^ d, (3 * i + 5) % 16)
    else (c ^^^ (b ||| (d ^^^ md5Mask)), (7 * i) % 16)
  let f := (fg.1 + a + md5K.getD i 0 + w.getD fg.2 0) % md5Mod
  (d, (b + rotl32 f (md5S.getD i 0)) % md5Mod, b, c)

/-- Process one 64-byte block. -/
def md5Block (st : Nat × Nat × Nat × Nat) (block : List Nat) :
    Nat × Nat × Nat × Nat :=
  let w := md5Words block
  let r := (List.range 64).foldl (md5Step w) st
  ((st.1 + r.1) % md5Mod, (st.2.1 + r.2.1) % md5Mod,
   (st.2.2.1 + r.2.2.1) % md5Mod, (st.2.2.2 + r.2.2.2) % md5Mod)

/-- MD5 padding: `0x80`, zeros to 56 mod 64, then the 64-bit little-endian
bit length. -/
def md5Pad (msg : List Nat) : List Nat :=
  msg ++ 0x80 :: List.replicate ((119 - msg.length % 64) % 64) 0
      ++ leBytes ((8 * msg.length) % (2 ^ 64)) 8

/-- The 16-byte MD5 digest of a byte list. -/
def md5Digest (msg : List Nat) : List Nat :=
  let padded := md5Pad msg
  let st := (chunk64Go padded.length padded).foldl md5Block
    (0x67452301, 0xefcdab89, 0x98badcfe, 0x10325476)
  leBytes st.1 4 ++ leBytes st.2.1 4 ++ leBytes st.2.2.1 4 ++ leBytes st.2.2.2 4

/-- Lowercase hex digit: 0-9 then a-f, by code point arithmetic. -/
def hexChar (n : Nat) : Char :=
  if n < 10 then Char.ofNat (48 + n) else Char.ofNat (87 + n)

/-- Two hex digits of one byte. -/
def byteHex (b : Nat) : List Char := [hexChar (b / 16), hexChar (b % 16)]

/-- UTF-8 encoding of one code point, as `str.encode()` produces. -/
def utf8Bytes (c : Char) : List Nat :=
  let n := c.toNat
  if n < 0x80 then [n]
  else if n < 0x800 then [0xc0 + n / 64, 0x80 + n % 64]
  else if n < 0x10000 then [0xe0 + n / 4096, 0x80 + (n / 64) % 64, 0x80 + n % 64]
  else [0xf0 + n / 262144, 0x80 + (n / 4096) % 64, 0x80 + (n / 64) % 64,
        0x80 + n % 64]

/-- UTF-8 bytes of a string, `s.encode()`. -/
def strBytes (s : String) : List Nat := (s.toList.map utf8Bytes).flatten

/-- `hashlib.md5(s.encode()).hexdigest()`. -/
def md5HexOfString (s : String) : String :=
  String.mk ((md5Digest (strBytes s)).map byteHex).flatten

/-! ## Model of `backend/app/utils/caching.py` -/

/-- The Python exceptions distinguished by the `except` clauses of
`caching.py`.  `jsonDecodeError` models `json.JSONDecodeError`, which is
a subclass of `ValueError` in Python. -/
inductive PyErr : Type
  | redisError (msg : String)
  | valueError (msg : String)
  | typeError (msg : String)
  | jsonDecodeError
deriving DecidableEq

/-- Exceptions caught by `except (TypeError, ValueError)` in
`serialize_for_cache` (`json.JSONDecodeError` is a `ValueError`). -/
def isTypeOrValueError : PyErr → Bool
  | PyErr.valueError _ => true
  | PyErr.typeError _ => true
  | PyErr.jsonDecodeError => true
  | _ => false

/-- Exceptions caught by `except (ValueError, redis.RedisError)` in the
store step of the `cache` wrapper. -/
def isValueOrRedisError : PyErr → Bool
  | PyErr.valueError _ => true
  | PyErr.jsonDecodeError => true
  | PyErr.redisError _ => true
  | _ => false

/-- `serialize_for_cache(obj)`: attempt `json.dumps(obj)` (the outcome of
which is the `dumps` argument); on `TypeError`/`ValueError`, raise
`ValueError`. -/
def serialize_for_cache (dumps : Except PyErr String) : Except PyErr String :=
  match dumps with
  | Except.ok s => Except.ok s
  | Except.error e =>
    if isTypeOrValueError e then
      Except.error (PyErr.valueError "Object is not JSON serializable")
    else Except.error e

/-- `deserialize_from_cache(data)`: attempt `json.loads(data)` (the
outcome of which is the `loads` argument; `Option` models that the parsed
value may be Python `None`); on `json.JSONDecodeError`, return `None`. -/
def deserialize_from_cache {β : Type} (loads : Except PyErr (Option β)) :
    Except PyErr (Option β) :=
  match loads with
  | Except.ok v => Except.ok v
  | Except.error PyErr.jsonDecodeError => Except.ok none
  | Except.error e => Except.error e

/-- The serialize-then-`setex` sequence inside the store `try` block of
the `cache` wrapper. -/
def storeAttempt (dumps : Except PyErr String) (setex : Except PyErr Unit) :
    Except PyErr Unit :=
  match serialize_for_cache dumps with
  | Except.ok _ => setex
  | Except.error e => Except.error e

/-- The body of the `wrapper` closure produced by the `cache` decorator,
for one invocation.  Arguments model the observable behaviour of the
environment during this invocation: `enabled` is `is_cache_enabled()`,
`g` is the outcome of `redis_client.get(cache_key)`, `loadsOf s` is the
outcome of `json.loads(s)`, `computed` is the value returned by the
wrapped function (`Option` models Python `None`), `dumps` is the outcome
of `json.dumps(computed)`, and `setex` is the outcome of
`redis_client.setex(...)`.  The returned `Except` is the call's result:
`ok v` when the wrapper returns `v`, `error e` when it raises `e`. -/
def cache_wrapper {β : Type} (enabled : Bool)
    (g : Except PyErr (Option String))
    (loadsOf : String → Except PyErr (Option β))
    (computed : Option β)
    (dumps : Except PyErr String) (setex : Except PyErr Unit) :
    Except PyErr (Option β) :=
  if enabled = false then Except.ok computed
  else
    match g with
    | Except.error (PyErr.redisError _) => Except.ok computed
    | Except.error e => Except.error e
    | Except.ok cachedValue =>
      if cachedValue.getD "" ≠ "" then
        match deserialize_from_cache (loadsOf (cachedValue.getD "")) with
        | Except.ok v => Except.ok v
        | Except.error (PyErr.redisError _) => Except.ok computed
        | Except.error e => Except.error e
      else
        match storeAttempt dumps setex with
        | Except.ok _ => Except.ok computed
        | Except.error e =>
          if isValueOrRedisError e then Except.ok computed
          else Except.error e

/-- The total preorder that Python's `sorted(kwargs.items())` sorts by:
lexicographic comparison of the `(key, value)` string pairs, strings
compared by code points. -/
def kwargLe (a b : String × String) : Prop :=
  listLtB a.1.toList b.1.toList = true ∨
  (a.1 = b.1 ∧ (listLtB a.2.toList b.2.toList = true ∨ a.2 = b.2))

instance : DecidableRel kwargLe := fun _ _ =>
  inferInstanceAs (Decidable (_ ∨ _))

/-- `sorted(kwargs.items())`. -/
def sortedKwargs (kwargs : List (String × String)) : List (String × String) :=
  List.insertionSort kwargLe kwargs

/-- `generate_cache_key(func_name, args, kwargs)` from `caching.py`:
join `func_name`, `str(arg)` for each positional argument, and `"k:v"`
for each keyword argument in sorted order, with `"_"`, then prefix the
namespace onto the MD5 hex digest.  Positional arguments and keyword
values are modelled by their `str(...)` images. -/
def generate_cache_key (func_name : String) (args : List String)
    (kwargs : List (String × String)) : String :=
  let key_parts := func_name :: args ++
    (sortedKwargs kwargs).map fun kv => kv.1 ++ ":" ++ kv.2
  let key_string := String.intercalate "_" key_parts
  "intellimail:cache:" ++ md5HexOfString key_string

/-- Skip a run of consecutive `*` wildcards, as redis's matcher collapses
them before trying the remainder of the pattern. -/
def skipStars : List Char → List Char
  | [] => []
  | c :: ps => if c = '*' then skipStars ps else c :: ps

/-- One `[...]` character class of a redis glob pattern, transcribed from
`stringmatchlen` in redis `src/util.c`: given the subject character and
the pattern after the opening bracket (and optional `^`), accumulate
whether any entry matches — a `\x5c`-escaped literal, a `a-b` range
(bounds swapped when reversed), or a plain character — stopping at `]`
or at the end of the pattern; returns the match flag and the pattern
remaining after the class. -/
def classMatch (c : Char) : List Char → Bool → Bool × List Char
  | [], m => (m, [])
  | '\\' :: pe :: ps, m => classMatch c ps (m || pe = c)
  | '\\' :: [], m => (m || '\\' = c, [])
  | ']' :: ps, m => (m, ps)
  | a :: '-' :: b :: ps, m =>
    let lo := if a.toNat ≤ b.toNat then a else b
    let hi := if a.toNat ≤ b.toNat then b else a
    classMatch c ps (m || (lo.toNat ≤ c.toNat && c.toNat ≤ hi.toNat))
  | a :: ps, m => classMatch c ps (m || a = c)

/-- After consuming one subject character: when the subject is exhausted,
redis skips trailing `*` wildcards and succeeds exactly when the pattern
is also exhausted; otherwise matching continues (`r` is the continuation
with smaller fuel). -/
def globStep (r : List Char → List Char → Bool)
    (ps cs : List Char) : Bool :=
  if cs = [] then decide (skipStars ps = []) else r ps cs

/-- Redis glob matching (`stringmatchlen` with `nocase=0`), transcribed
case for case from redis `src/util.c`: `*` matches any sequence, `?` any
single character, `[...]` a character class, `\x5c` escapes the next
character, anything else matches itself.  The `fuel` argument makes the
recursion structural and kernel-reducible; every recursive call strictly
shrinks the pattern, so any fuel above the pattern length is enough. -/
def globMatch : Nat → List Char → List Char → Bool
  | 0, _, _ => false
  | f + 1, p, s =>
    match p, s with
    | [], [] => true
    | [], _ :: _ => false
    | _ :: _, [] => false
    | pc :: ps, c :: cs =>
      if pc = '*' then
        let ps2 := skipStars ps
        if ps2 = [] then true
        else ((c :: cs).tails.dropLast).any fun suf => globMatch f ps2 suf
      else if pc = '?' then
        globStep (globMatch f) ps cs
      else if pc = '[' then
        let nb : Bool × List Char :=
          match ps with
          | '^' :: rest => (true, rest)
          | _ => (false, ps)
        let mr := classMatch c nb.2 false
        if (if nb.1 then !mr.1 else mr.1) then globStep (globMatch f) mr.2 cs
        else false
      else if pc = '\\' then
        match ps with
        | pe :: ps2 => if pe = c then globStep (globMatch f) ps2 cs else false
        | [] => if pc = c then globStep (globMatch f) [] cs else false
      else
        if pc = c then globStep (globMatch f) ps cs else false

/-- Does a redis glob pattern match a key name, as `redis_client.keys`
decides membership. -/
def redisKeysMatch (pat key : String) : Bool :=
  globMatch (pat.toList.length + key.toList.length + 1) pat.toList key.toList

/-- Glob metacharacters of redis patterns; a pattern containing none of
them is matched literally. -/
def isGlobMeta (c : Char) : Bool :=
  c = '*' || c = '?' || c = '[' || c = '\\'

/-- Is a stored key name deleted for the given pattern?  This is
`redis_client.keys(f"intellimail:cache:\x7bpattern\x7d*")` membership:
redis glob matching of the namespace plus the caller's pattern plus a
trailing `*`. -/
def key_matches (pat key : String) : Bool :=
  redisKeysMatch ("intellimail:cache:" ++ pat ++ "*") key

/-- `invalidate_cache(pattern)` from `caching.py`, acting on a store
modelled as an association list of key/value pairs.  `store_err` models
a `redis.RedisError` raised by the backing store.  Returns the number of
deleted keys together with the remaining store. -/
def invalidate_cache (store_err : Bool) (store : List (String × String))
    (pat : String) : Nat × List (String × String) :=
  if store_err then (0, store)
  else
    let keys := store.filter fun kv => key_matches pat kv.1
    match keys with
    | [] => (0, store)
    | _ :: _ => (keys.length, store.filter fun kv => !(key_matches pat kv.1))

/-! ## Model of `backend/app/services/ai_service.py` -/

/-- A named entity as produced by `_extract_entities`: text span, label,
and character offsets. -/
structure PyEntity : Type where
  text : String
  label : String
  start_char : Nat
  end_char : Nat
deriving DecidableEq

/-- The email record consumed by `analyze_email_content`: a dictionary
whose `subject` and `body` keys may be absent (the code reads them with
`email.get(..., "")`). -/
structure Email : Type where
  id : Option Nat
  subject : Option String
  body : Option String
deriving DecidableEq

/-- The result dictionary assembled by `analyze_email_content`.  The
`sentiment_score` key is absent from the empty-body default result, hence
an `Option`. -/
structure AnalysisResult : Type where
  summary : String
  sentiment : String
  sentiment_score : Option ℚ
  entities : List PyEntity
  categories : List String
  importance_score : ℚ
  action_items : List String
  topics : List String
deriving DecidableEq

/-- Python `text[:n] if len(text) > n else text`. -/
def pyTruncate (text : String) (n : Nat) : String :=
  if text.length > n then String.mk (text.toList.take n) else text

/-- Python `str.lower()` returning a string. -/
def lowerStr (s : String) : String := String.mk (lowerChars s)

/-- The label normalization of `_analyze_sentiment` (lines 153-162):
lowercase the raw label and collapse to the standardized three-way
output, reclassifying `neutral` by confidence. -/
def sentimentNormalize (rawLabel : String) (score : ℚ) : String × ℚ :=
  let label := lowerStr rawLabel
  if label = "positive" ∨ (label = "neutral" ∧ 7/10 < score) then
    ("positive", score)
  else if label = "negative" ∨ (label = "neutral" ∧ score < 3/10) then
    ("negative", score)
  else ("neutral", score)

/-- `_analyze_sentiment(text)`: truncate to 512 characters, run the
classifier (modelled by `model`, which returns the raw `(label, score)`
or raises), normalize; on any failure return `("neutral", 0.5)`. -/
def analyze_sentiment (text : String)
    (model : String → Except PyErr (String × ℚ)) : String × ℚ :=
  let truncated := pyTruncate text 512
  match model truncated with
  | Except.ok (label, score) => sentimentNormalize label score
  | Except.error _ => ("neutral", 1/2)

/-- The fixed taxonomy listed in the `_categorize_email` prompt. -/
def taxonomy : List String :=
  ["Urgent", "Action Required", "Meeting", "Information", "Project Update",
   "External Client", "Internal Team", "Personal", "Marketing", "Sales",
   "HR", "Finance", "Technical"]

/-- `_categorize_email(subject, text)` (lines 187-233): on a successful
model call, split the response on commas and keep the stripped non-empty
items; on failure return `["Uncategorized"]`.  The response text is the
outcome of the prompted chat completion. -/
def categorize_email (response : Except PyErr String) : List String :=
  match response with
  | Except.error _ => ["Uncategorized"]
  | Except.ok content =>
    (splitOnChar ',' content.toList).filterMap fun cat =>
      let t := pyStrip cat
      if t = [] then none else some (String.mk t)

/-- The urgent keyword list of `_calculate_importance`. -/
def urgent_keywords : List String :=
  ["urgent", "asap", "immediately", "deadline", "important", "critical"]

/-- The action keyword list of `_calculate_importance`. -/
def action_keywords : List String :=
  ["please", "request", "action", "review", "approve", "confirm"]

/-- `_calculate_importance(subject, text, entities)` (lines 235-262): the
deterministic heuristic score.  The `try` body cannot fail, so the
`except` fallback `0.5` is unreachable and not modelled. -/
def calculate_importance (subject text : String)
    (entities : List PyEntity) : ℚ :=
  let importance : ℚ := 0
  let importance :=
    if containsAny (lowerChars subject) urgent_keywords then importance + 4/10
    else importance
  let importance :=
    if containsAny ((lowerChars text).take 500) urgent_keywords then
      importance + 2/10
    else importance
  let importance :=
    if containsAny ((lowerChars text).take 1000) action_keywords then
      importance + 2/10
    else importance
  let person_entities :=
    entities.filter fun e => decide (e.label = "PERSON" ∨ e.label = "ORG")
  let importance :=
    importance + pymin ((person_entities.length : ℚ) * (5/100)) (2/10)
  pymin (pymax importance 0) 1

/-- Characters removed by `line.lstrip("-*0123456789. ")`. -/
def isBulletChar (c : Char) : Bool :=
  c = '-' || c = '*' || c = '.' || c = ' ' || ('0' ≤ c && c ≤ '9')

/-- `_extract_action_items(text)` (lines 264-301): on success, strip the
response, split into lines, accept a line when non-empty (after
stripping) and starting with `-`, `*`, or containing a digit in its
first two characters, then strip leading bullet characters and drop
items that become empty; on failure return `[]`. -/
def extract_action_items (response : Except PyErr String) : List String :=
  match response with
  | Except.error _ => []
  | Except.ok raw =>
    let content := pyStrip raw.toList
    (splitOnChar '\n' content).filterMap fun rawLine =>
      let line := pyStrip rawLine
      if line ≠ [] ∧ (line.head? = some '-' ∨ line.head? = some '*' ∨
          (line.take 2).any Char.isDigit) then
        let item := line.dropWhile isBulletChar
        if item ≠ [] then some (String.mk item) else none
      else none

/-- `_extract_topics(text)` (lines 303-339): identical line processing to
`_extract_action_items`, transcribed separately from its own loop. -/
def extract_topics (response : Except PyErr String) : List String :=
  match response with
  | Except.error _ => []
  | Except.ok raw =>
    let content := pyStrip raw.toList
    (splitOnChar '\n' content).filterMap fun rawLine =>
      let line := pyStrip rawLine
      if line ≠ [] ∧ (line.head? = some '-' ∨ line.head? = some '*' ∨
          (line.take 2).any Char.isDigit) then
        let item := line.dropWhile isBulletChar
        if item ≠ [] then some (String.mk item) else none
      else none

/-- The backend-dependent sub-analyzers of `AiService`, modelled as
explicit behaviour: each field gives the outcome of the corresponding
model call for a given input.  `generate_summary` and `extract_entities`
absorb their own failures in the source and so are total here. -/
structure SubAnalyzers : Type where
  generate_summary : String → String → String
  sentiment_model : String → Except PyErr (String × ℚ)
  extract_entities : String → List PyEntity
  categorize_response : String → String → Except PyErr String
  action_items_response : String → Except PyErr String
  topics_response : String → Except PyErr String

/-- `analyze_email_content(email)` (lines 49-91): read `body` and
`subject` with defaults, short-circuit to the all-default result when the
body is empty or absent, otherwise fan out to all sub-analyzers and
assemble the result dictionary. -/
def analyze_email_content (svc : SubAnalyzers) (email : Email) :
    AnalysisResult :=
  let text := email.body.getD ""
  let subject := email.subject.getD ""
  if text = "" then
    { summary := "No content to analyze"
      sentiment := "neutral"
      sentiment_score := none
      entities := []
      categories := []
      importance_score := 0
      action_items := []
      topics := [] }
  else
    let summary := svc.generate_summary subject text
    let sentPair := analyze_sentiment text svc.sentiment_model
    let entities := svc.extract_entities text
    let categories := categorize_email (svc.categorize_response subject text)
    let importance_score := calculate_importance subject text entities
    let action_items := extract_action_items (svc.action_items_response text)
    let topics := extract_topics (svc.topics_response text)
    { summary := summary
      sentiment := sentPair.1
      sentiment_score := some sentPair.2
      entities := entities
      categories := categories
      importance_score := importance_score
      action_items := action_items
      topics := topics }

/-- Python `repr` of a string value without special characters, as it
appears inside `str(dict)`. -/
def pyReprStr (s : String) : String := "\x27" ++ s ++ "\x27"

/-- One optional `, 'key': value` segment of `str(dict)`. -/
def pyDictField (name : String) (v : Option String) : String :=
  match v with
  | none => ""
  | some s => ", \x27" ++ name ++ "\x27: " ++ pyReprStr s

/-- `str(email)` for the email dictionary: the `str(arg)` image the
`cache` wrapper feeds to `generate_cache_key` for the `email` positional
argument (ASCII content, fields in construction order). -/
def pyStrEmail (e : Email) : String :=
  "\x7b\x27id\x27: " ++ (match e.id with
    | none => "None"
    | some n => toString n) ++
  pyDictField "subject" e.subject ++ pyDictField "body" e.body ++ "\x7d"

/-- The cache key derived by the `@cache(ttl=3600)` wrapper around the
bound method call `service.analyze_email_content(email)`:
`func.__name__` is `"analyze_email_content"` and `args` is the pair
`(self, email)`, so the key parts are `str(self)` — the instance repr,
which contains the object's memory address — followed by `str(email)`. -/
def analyze_email_cache_key (self_repr : String) (email : Email) : String :=
  generate_cache_key "analyze_email_content" [self_repr, pyStrEmail email] []

/-! ## Helper lemmas -/

/-- `List.isPrefixOf` on characters holds exactly when the second list
extends the first. -/
theorem isPrefixOf_ex (l₁ : List Char) : ∀ l₂ : List Char,
    l₁.isPrefixOf l₂ = true ↔ ∃ t, l₁ ++ t = l₂ := by
  induction l₁ with
  | nil => intro l₂; simp [List.isPrefixOf]
  | cons a as ih =>
    intro l₂
    cases l₂ with
    | nil => simp [List.isPrefixOf]
    | cons b bs =>
      simp only [List.isPrefixOf, Bool.and_eq_true, beq_iff_eq, ih,
        List.cons_append, List.cons.injEq]
      constructor
      · rintro ⟨hab, t, ht⟩
        exact ⟨t, hab, ht⟩
      · rintro ⟨t, hab, ht⟩
        exact ⟨hab, t, ht⟩

/-- `containsSub` is exactly Python's substring containment. -/
theorem containsSub_iff (w : List Char) : ∀ l : List Char,
    containsSub w l = true ↔ ∃ pre post, pre ++ (w ++ post) = l := by
  intro l
  induction l with
  | nil =>
    simp only [containsSub, List.isEmpty_iff]
    constructor
    · rintro rfl
      exact ⟨[], [], rfl⟩
    · rintro ⟨pre, post, h⟩
      rcases List.append_eq_nil.mp h with ⟨-, h2⟩
      exact (List.append_eq_nil.mp h2).1
  | cons c rest ih =>
    simp only [containsSub, Bool.or_eq_true, isPrefixOf_ex, ih]
    constructor
    · rintro (⟨t, ht⟩ | ⟨pre, post, h⟩)
      · exact ⟨[], t, ht⟩
      · exact ⟨c :: pre, post, by rw [List.cons_append, h]⟩
    · rintro ⟨pre, post, h⟩
      cases pre with
      | nil => exact Or.inl ⟨post, h⟩
      | cons c' pre' =>
        rw [List.cons_append, List.cons.injEq] at h
        exact Or.inr ⟨pre', post, h.2⟩

/-- `containsAny` is exactly "some keyword occurs as a substring". -/
theorem containsAny_iff (hay : List Char) (ws : List String) :
    containsAny hay ws = true ↔
      ∃ w ∈ ws, ∃ pre post, pre ++ (w.toList ++ post) = hay := by
  simp [containsAny, List.any_eq_true, containsSub_iff]

/-- Characters with equal code points are equal. -/
theorem char_toNat_inj {a b : Char} (h : a.toNat = b.toNat) : a = b :=
  Char.eq_of_val_eq (UInt32.ext h)

/-- Code-point comparison is irreflexive. -/
theorem listLtB_irrefl (l : List Char) : listLtB l l = false := by
  induction l with
  | nil => rfl
  | cons a as ih => simp [listLtB, ih]

/-- Code-point comparison is transitive. -/
theorem listLtB_trans {x : List Char} : ∀ {y z : List Char},
    listLtB x y = true → listLtB y z = true → listLtB x z = true := by
  induction x with
  | nil =>
    intro y z h1 h2
    cases y with
    | nil => simp [listLtB] at h1
    | cons b bs =>
      cases z with
      | nil => simp [listLtB] at h2
      | cons c cs => rfl
  | cons a as ih =>
    intro y z h1 h2
    cases y with
    | nil => simp [listLtB] at h1
    | cons b bs =>
      cases z with
      | nil => simp [listLtB] at h2
      | cons c cs =>
        simp only [listLtB] at h1 h2 ⊢
        split_ifs at h1 h2 ⊢ <;>
          first
          | rfl
          | (exact ih h1 h2)
          | (exfalso; omega)
          | simp_all

/-- Code-point comparison is asymmetric. -/
theorem listLtB_asymm {x : List Char} : ∀ {y : List Char},
    listLtB x y = true → listLtB y x = false := by
  induction x with
  | nil =>
    intro y h
    cases y with
    | nil => simp [listLtB] at h
    | cons b bs => rfl
  | cons a as ih =>
    intro y h
    cases y with
    | nil => simp [listLtB] at h
    | cons b bs =>
      simp only [listLtB] at h ⊢
      split_ifs at h ⊢ <;>
        first
        | rfl
        | (exact ih h)
        | (exfalso; omega)
        | simp_all

/-- Lists unrelated by code-point comparison are equal. -/
theorem listLtB_eq_of_not {x : List Char} : ∀ {y : List Char},
    listLtB x y = false → listLtB y x = false → x = y := by
  induction x with
  | nil =>
    intro y h1 _
    cases y with
    | nil => rfl
    | cons b bs => simp [listLtB] at h1
  | cons a as ih =>
    intro y h1 h2
    cases y with
    | nil => simp [listLtB] at h2
    | cons b bs =>
      simp only [listLtB] at h1 h2
      split_ifs at h1 h2 <;>
        first
        | (exfalso; omega)
        | (have hab : a = b := char_toNat_inj (by omega)
           rw [hab, ih h1 h2])
        | simp_all

instance : IsTrans (String × String) kwargLe := by
  constructor
  intro a b c hab hbc
  rcases hab with h | ⟨hk, hv⟩
  · rcases hbc with h' | ⟨hk', _⟩
    · exact Or.inl (listLtB_trans h h')
    · exact Or.inl (by rw [← hk']; exact h)
  · rcases hbc with h' | ⟨hk', hv'⟩
    · exact Or.inl (by rw [hk]; exact h')
    · refine Or.inr ⟨hk.trans hk', ?_⟩
      rcases hv with h | h
      · rcases hv' with h' | h'
        · exact Or.inl (listLtB_trans h h')
        · exact Or.inl (by rw [← h']; exact h)
      · rcases hv' with h' | h'
        · exact Or.inl (by rw [h]; exact h')
        · exact Or.inr (h.trans h')

instance : IsAntisymm (String × String) kwargLe := by
  constructor
  intro a b hab hba
  rcases hab with h | ⟨hk, hv⟩
  · rcases hba with h' | ⟨hk', _⟩
    · rw [listLtB_asymm h] at h'
      exact absurd h' (by simp)
    · rw [hk'] at h
      rw [listLtB_irrefl] at h
      exact absurd h (by simp)
  · rcases hba with h' | ⟨hk', hv'⟩
    · rw [hk] at h'
      rw [listLtB_irrefl] at h'
      exact absurd h' (by simp)
    · refine Prod.ext hk ?_
      rcases hv with h | h
      · rcases hv' with h'' | h''
        · rw [listLtB_asymm h] at h''
          exact absurd h'' (by simp)
        · rw [h''] at h
          rw [listLtB_irrefl] at h
          exact absurd h (by simp)
      · exact h

instance : IsTotal (String × String) kwargLe := by
  constructor
  intro a b
  by_cases h1 : listLtB a.1.toList b.1.toList = true
  · exact Or.inl (Or.inl h1)
  by_cases h2 : listLtB b.1.toList a.1.toList = true
  · exact Or.inr (Or.inl h2)
  rw [Bool.not_eq_true] at h1 h2
  have hk : a.1 = b.1 := String.toList_inj.mp (listLtB_eq_of_not h1 h2)
  by_cases h3 : listLtB a.2.toList b.2.toList = true
  · exact Or.inl (Or.inr ⟨hk, Or.inl h3⟩)
  by_cases h4 : listLtB b.2.toList a.2.toList = true
  · exact Or.inr (Or.inr ⟨hk.symm, Or.inl h4⟩)
  rw [Bool.not_eq_true] at h3 h4
  have hv : a.2 = b.2 := String.toList_inj.mp (listLtB_eq_of_not h3 h4)
  exact Or.inl (Or.inr ⟨hk, Or.inr hv⟩)

/-- Sorting keyword arguments is invariant under permutation of the
input association list: this is why `generate_cache_key` is insensitive
to keyword order. -/
theorem sortedKwargs_perm_eq {k1 k2 : List (String × String)}
    (h : k1.Perm k2) : sortedKwargs k1 = sortedKwargs k2 :=
  List.eq_of_perm_of_sorted
    ((List.perm_insertionSort kwargLe k1).trans
      (h.trans (List.perm_insertionSort kwargLe k2).symm))
    (List.sorted_insertionSort kwargLe k1)
    (List.sorted_insertionSort kwargLe k2)

/-- Accumulating a guarded increment is the same as adding a guarded
constant, the shape bridging `_calculate_importance`'s accumulator with
the specification's sum of contributions. -/
theorem ite_add_right (c : Prop) [Decidable c] (x k : ℚ) :
    (if c then x + k else x) = x + (if c then k else 0) := by
  split <;> simp

/-- `String.toList` distributes over append. -/
theorem toList_append_eq (s t : String) :
    (s ++ t).toList = s.toList ++ t.toList :=
  String.data_append s t

/-- A redis glob pattern consisting of literal characters followed by a
single trailing `*` matches exactly the keys extending those literal
characters.  This is the shape `invalidate_cache` builds for glob-free
caller patterns. -/
theorem globMatch_literal : ∀ lit : List Char, lit ≠ [] →
    (∀ c ∈ lit, isGlobMeta c = false) → ∀ f : Nat, lit.length < f →
    ∀ key : List Char, globMatch f (lit ++ ['*']) key = lit.isPrefixOf key := by
  intro lit
  induction lit with
  | nil => intro h; exact absurd rfl h
  | cons a rest ih =>
    intro _ hmeta f hf key
    obtain ⟨g, rfl⟩ : ∃ g, f = g + 1 := ⟨f - 1, by omega⟩
    have ha := hmeta a (List.mem_cons_self a rest)
    rw [isGlobMeta] at ha
    simp only [Bool.or_eq_false_iff, decide_eq_false_iff_not] at ha
    obtain ⟨⟨⟨ha1, ha2⟩, ha3⟩, ha4⟩ := ha
    cases key with
    | nil => simp [globMatch, List.isPrefixOf]
    | cons c cs =>
      simp only [List.cons_append, globMatch]
      rw [if_neg ha1, if_neg ha2, if_neg ha3, if_neg ha4]
      by_cases hac : a = c
      · rw [if_pos hac]
        cases rest with
        | nil =>
          cases cs with
          | nil => simp [globStep, skipStars, List.isPrefixOf, hac]
          | cons c2 cs2 =>
            obtain ⟨h2, rfl⟩ : ∃ h2, g = h2 + 1 :=
              ⟨g - 1, by simp at hf; omega⟩
            simp [globStep, globMatch, skipStars, List.isPrefixOf, hac]
        | cons r0 rs =>
          have hr0 := hmeta r0 (by simp)
          rw [isGlobMeta] at hr0
          simp only [Bool.or_eq_false_iff, decide_eq_false_iff_not] at hr0
          obtain ⟨⟨⟨hr1, -⟩, -⟩, -⟩ := hr0
          cases cs with
          | nil =>
            simp [globStep, skipStars, hr1, List.isPrefixOf]
          | cons c2 cs2 =>
            have hx : globStep (globMatch g) ((r0 :: rs) ++ ['*'])
                (c2 :: cs2) = globMatch g ((r0 :: rs) ++ ['*'])
                (c2 :: cs2) := by
              simp [globStep]
            rw [hx, ih (by simp)
              (fun c hc => hmeta c (List.mem_cons_of_mem a hc)) g
              (by simp at hf ⊢; omega) (c2 :: cs2)]
            simp [List.isPrefixOf, hac]
      · rw [if_neg hac]
        have hbeq : (a == c) = false := by simp [hac]
        simp [List.isPrefixOf, hbeq]

/-- For a glob-free caller pattern, `key_matches` is exactly "the key
name begins with the namespace plus the pattern". -/
theorem key_matches_literal (pat : String)
    (hpat : ∀ c ∈ pat.toList, isGlobMeta c = false) (key : String) :
    key_matches pat key =
      ("intellimail:cache:" ++ pat).toList.isPrefixOf key.toList := by
  have hsplit : ("intellimail:cache:" ++ pat ++ "*").toList =
      ("intellimail:cache:" ++ pat).toList ++ ['*'] := by
    rw [toList_append_eq]
    rfl
  have hns : ∀ c ∈ ("intellimail:cache:").toList, isGlobMeta c = false := by
    decide
  have hmeta : ∀ c ∈ ("intellimail:cache:" ++ pat).toList,
      isGlobMeta c = false := by
    intro c hc
    rw [toList_append_eq] at hc
    rcases List.mem_append.mp hc with h | h
    · exact hns c h
    · exact hpat c h
  have hne : ("intellimail:cache:" ++ pat).toList ≠ [] := by
    intro hc
    rw [toList_append_eq] at hc
    exact absurd (List.append_eq_nil.mp hc).1 (by decide)
  rw [key_matches, redisKeysMatch, hsplit]
  apply globMatch_literal _ hne hmeta
  simp
  omega

/-! ## Claims -/

/-- Claim C1: for every email whose body is empty or absent,
`analyze_email_content` returns exactly the all-default result (summary
"No content to analyze", sentiment "neutral", empty
entities/categories/action_items/topics, importance_score 0, and no
sentiment_score field), and the result does not depend on any
sub-analyzer or backend behaviour — none is invoked. -/
theorem analyze_email_content_empty_default (svc svc' : SubAnalyzers)
    (email : Email) (h : email.body.getD "" = "") :
    analyze_email_content svc email =
      { summary := "No content to analyze", sentiment := "neutral",
        sentiment_score := none, entities := [], categories := [],
        importance_score := 0, action_items := [], topics := [] } ∧
    analyze_email_content svc email = analyze_email_content svc' email := by
  constructor
  · simp [analyze_email_content, h]
  · simp [analyze_email_content, h]

/-- Witness for C1 at a concrete absent-body email and two concrete,
behaviourally different sub-analyzer bundles. -/
theorem analyze_email_content_empty_default_witness :
    analyze_email_content
      ⟨fun _ _ => "a summary", fun _ => Except.error PyErr.jsonDecodeError,
       fun _ => [], fun _ _ => Except.ok "Meeting",
       fun _ => Except.ok "- item", fun _ => Except.ok "- topic"⟩
      ⟨some 1, some "Quarterly report", none⟩ =
      { summary := "No content to analyze", sentiment := "neutral",
        sentiment_score := none, entities := [], categories := [],
        importance_score := 0, action_items := [], topics := [] } ∧
    analyze_email_content
      ⟨fun _ _ => "a summary", fun _ => Except.error PyErr.jsonDecodeError,
       fun _ => [], fun _ _ => Except.ok "Meeting",
       fun _ => Except.ok "- item", fun _ => Except.ok "- topic"⟩
      ⟨some 1, some "Quarterly report", none⟩ =
    analyze_email_content
      ⟨fun _ _ => "other", fun _ => Except.ok ("positive", 1/2),
       fun _ => [⟨"Alice", "PERSON", 0, 5⟩], fun _ _ => Except.error (PyErr.valueError "x"),
       fun _ => Except.error (PyErr.valueError "x"),
       fun _ => Except.error (PyErr.valueError "x")⟩
      ⟨some 1, some "Quarterly report", none⟩ :=
  analyze_email_content_empty_default _ _ _ rfl

section
open Classical

/-- Claim C2: `_calculate_importance` is a deterministic function of
(subject, body, entities): 0.4 for an urgent keyword in the subject
(case-insensitively), 0.2 for an urgent keyword in the first 500
characters of the body, 0.2 for an action keyword in the first 1000
characters of the body, 0.05 per PERSON/ORG entity capped at 0.2, all
clamped to [0, 1]; and on the claim's concrete inputs it scores 0.4,
then 0.6, then 0.8 (not 0.85). -/
theorem calculate_importance_spec (subject text : String)
    (entities : List PyEntity) :
    (calculate_importance subject text entities =
      pymin (pymax
        ((if ∃ w ∈ urgent_keywords, ∃ pre post,
              pre ++ (w.toList ++ post) = lowerChars subject
          then (4/10 : ℚ) else 0)
         + (if ∃ w ∈ urgent_keywords, ∃ pre post,
              pre ++ (w.toList ++ post) = (lowerChars text).take 500
            then (2/10 : ℚ) else 0)
         + (if ∃ w ∈ action_keywords, ∃ pre post,
              pre ++ (w.toList ++ post) = (lowerChars text).take 1000
            then (2/10 : ℚ) else 0)
         + pymin (((entities.filter fun e =>
              decide (e.label = "PERSON" ∨ e.label = "ORG")).length : ℚ)
                * (5/100)) (2/10))
        0) 1) ∧
    calculate_importance "URGENT: deadline tomorrow"
      "Hello team, the meeting notes are attached." [] = 4/10 ∧
    calculate_importance "URGENT: deadline tomorrow"
      "Hello team, the meeting notes are attached. Please review." [] = 6/10 ∧
    calculate_importance "URGENT: deadline tomorrow"
      "Hello team, the meeting notes are attached. Please review."
      [⟨"Alice", "PERSON", 0, 5⟩, ⟨"Bob", "PERSON", 6, 9⟩,
       ⟨"Carol", "PERSON", 10, 15⟩, ⟨"Acme", "ORG", 16, 20⟩,
       ⟨"Globex", "ORG", 21, 27⟩] = 8/10 ∧
    calculate_importance "URGENT: deadline tomorrow"
      "Hello team, the meeting notes are attached. Please review."
      [⟨"Alice", "PERSON", 0, 5⟩, ⟨"Bob", "PERSON", 6, 9⟩,
       ⟨"Carol", "PERSON", 10, 15⟩, ⟨"Acme", "ORG", 16, 20⟩,
       ⟨"Globex", "ORG", 21, 27⟩] ≠ 85/100 := by
  refine ⟨?_, ?_, ?_, ?_, ?_⟩
  · simp only [calculate_importance, ite_add_right, containsAny_iff, zero_add]
  · have hb1 : containsAny (lowerChars "URGENT: deadline tomorrow")
        urgent_keywords = true := by decide
    have hb2 : containsAny
        ((lowerChars "Hello team, the meeting notes are attached.").take 500)
        urgent_keywords = false := by decide
    have hb3 : containsAny
        ((lowerChars "Hello team, the meeting notes are attached.").take 1000)
        action_keywords = false := by decide
    simp only [calculate_importance, hb1, hb2, hb3, if_true, if_false,
      List.filter_nil, List.length_nil, Nat.cast_zero]
    norm_num [pymin, pymax]
  · have hb1 : containsAny (lowerChars "URGENT: deadline tomorrow")
        urgent_keywords = true := by decide
    have hb2 : containsAny ((lowerChars
        "Hello team, the meeting notes are attached. Please review.").take 500)
        urgent_keywords = false := by decide
    have hb3 : containsAny ((lowerChars
        "Hello team, the meeting notes are attached. Please review.").take 1000)
        action_keywords = true := by decide
    simp only [calculate_importance, hb1, hb2, hb3, if_true, if_false,
      List.filter_nil, List.length_nil, Nat.cast_zero]
    norm_num [pymin, pymax]
  · have hb1 : containsAny (lowerChars "URGENT: deadline tomorrow")
        urgent_keywords = true := by decide
    have hb2 : containsAny ((lowerChars
        "Hello team, the meeting notes are attached. Please review.").take 500)
        urgent_keywords = false := by decide
    have hb3 : containsAny ((lowerChars
        "Hello team, the meeting notes are attached. Please review.").take 1000)
        action_keywords = true := by decide
    have hf : (([⟨"Alice", "PERSON", 0, 5⟩, ⟨"Bob", "PERSON", 6, 9⟩,
       ⟨"Carol", "PERSON", 10, 15⟩, ⟨"Acme", "ORG", 16, 20⟩,
       ⟨"Globex", "ORG", 21, 27⟩] : List PyEntity).filter fun e =>
          decide (e.label = "PERSON" ∨ e.label = "ORG")).length = 5 := by decide
    simp only [calculate_importance, hb1, hb2, hb3, hf, if_true, if_false]
    norm_num [pymin, pymax]
  · have hb1 : containsAny (lowerChars "URGENT: deadline tomorrow")
        urgent_keywords = true := by decide
    have hb2 : containsAny ((lowerChars
        "Hello team, the meeting notes are attached. Please review.").take 500)
        urgent_keywords = false := by decide
    have hb3 : containsAny ((lowerChars
        "Hello team, the meeting notes are attached. Please review.").take 1000)
        action_keywords = true := by decide
    have hf : (([⟨"Alice", "PERSON", 0, 5⟩, ⟨"Bob", "PERSON", 6, 9⟩,
       ⟨"Carol", "PERSON", 10, 15⟩, ⟨"Acme", "ORG", 16, 20⟩,
       ⟨"Globex", "ORG", 21, 27⟩] : List PyEntity).filter fun e =>
          decide (e.label = "PERSON" ∨ e.label = "ORG")).length = 5 := by decide
    simp only [calculate_importance, hb1, hb2, hb3, hf, if_true, if_false]
    norm_num [pymin, pymax]

end

/-- Unfolding equation for `sentimentNormalize`. -/
theorem sentimentNormalize_eq (lab : String) (score : ℚ) :
    sentimentNormalize lab score =
      if lowerStr lab = "positive" ∨ (lowerStr lab = "neutral" ∧ 7/10 < score)
      then ("positive", score)
      else if lowerStr lab = "negative" ∨
          (lowerStr lab = "neutral" ∧ score < 3/10)
      then ("negative", score)
      else ("neutral", score) := rfl

/-- Claim C3: sentiment normalization maps raw positive to positive, raw
negative to negative, raw neutral with score > 0.7 to positive, raw
neutral with score < 0.3 to negative, anything else to neutral, always
preserving the score; `_analyze_sentiment` applies exactly this
normalization to the classifier output; and the claim's four concrete
raw outputs map as stated. -/
theorem sentiment_normalization (score : ℚ) (h0 : 0 ≤ score)
    (h1 : score ≤ 1) :
    sentimentNormalize "positive" score = ("positive", score) ∧
    sentimentNormalize "negative" score = ("negative", score) ∧
    (7/10 < score → sentimentNormalize "neutral" score = ("positive", score)) ∧
    (score < 3/10 → sentimentNormalize "neutral" score = ("negative", score)) ∧
    (3/10 ≤ score → score ≤ 7/10 →
      sentimentNormalize "neutral" score = ("neutral", score)) ∧
    (∀ lab : String, lowerStr lab ≠ "positive" → lowerStr lab ≠ "negative" →
      lowerStr lab ≠ "neutral" →
      sentimentNormalize lab score = ("neutral", score)) ∧
    (∀ (text : String) (mdl : String → Except PyErr (String × ℚ))
       (lab : String) (s : ℚ), mdl (pyTruncate text 512) = Except.ok (lab, s) →
       analyze_sentiment text mdl = sentimentNormalize lab s) ∧
    sentimentNormalize "neutral" (8/10) = ("positive", 8/10) ∧
    sentimentNormalize "neutral" (2/10) = ("negative", 2/10) ∧
    sentimentNormalize "neutral" (5/10) = ("neutral", 5/10) ∧
    sentimentNormalize "positive" (99/100) = ("positive", 99/100) := by
  have hp : lowerStr "positive" = "positive" := by decide
  have hn : lowerStr "negative" = "negative" := by decide
  have hu : lowerStr "neutral" = "neutral" := by decide
  refine ⟨?_, ?_, ?_, ?_, ?_, ?_, ?_, ?_, ?_, ?_, ?_⟩
  · rw [sentimentNormalize_eq, hp, if_pos (Or.inl rfl)]
  · rw [sentimentNormalize_eq, hn,
      if_neg (by rintro (h | ⟨h, -⟩) <;> exact absurd h (by decide)),
      if_pos (Or.inl rfl)]
  · intro hs
    rw [sentimentNormalize_eq, hu, if_pos (Or.inr ⟨rfl, hs⟩)]
  · intro hs
    rw [sentimentNormalize_eq, hu,
      if_neg (by
        rintro (h | ⟨-, h⟩)
        · exact absurd h (by decide)
        · linarith),
      if_pos (Or.inr ⟨rfl, hs⟩)]
  · intro h3 h7
    rw [sentimentNormalize_eq, hu,
      if_neg (by
        rintro (h | ⟨-, h⟩)
        · exact absurd h (by decide)
        · linarith),
      if_neg (by
        rintro (h | ⟨-, h⟩)
        · exact absurd h (by decide)
        · linarith)]
  · intro lab hlp hln hlu
    rw [sentimentNormalize_eq,
      if_neg (by rintro (h | ⟨h, -⟩) <;> [exact hlp h; exact hlu h]),
      if_neg (by rintro (h | ⟨h, -⟩) <;> [exact hln h; exact hlu h])]
  · intro text mdl lab s hmd
    simp only [analyze_sentiment, hmd]
  · rw [sentimentNormalize_eq, hu, if_pos (Or.inr ⟨rfl, by norm_num⟩)]
  · rw [sentimentNormalize_eq, hu,
      if_neg (by
        rintro (h | ⟨-, h⟩)
        · exact absurd h (by decide)
        · norm_num at h),
      if_pos (Or.inr ⟨rfl, by norm_num⟩)]
  · rw [sentimentNormalize_eq, hu,
      if_neg (by
        rintro (h | ⟨-, h⟩)
        · exact absurd h (by decide)
        · norm_num at h),
      if_neg (by
        rintro (h | ⟨-, h⟩)
        · exact absurd h (by decide)
        · norm_num at h)]
  · rw [sentimentNormalize_eq, hp, if_pos (Or.inl rfl)]

/-- Witness for C3 at the concrete confidence 0.5. -/
theorem sentiment_normalization_witness :
    sentimentNormalize "positive" (1/2) = ("positive", 1/2) ∧
    sentimentNormalize "neutral" (1/2) = ("neutral", 1/2) :=
  have h := sentiment_normalization (1/2) (by norm_num) (by norm_num)
  ⟨h.1, h.2.2.2.2.1 (by norm_num) (by norm_num)⟩

set_option maxRecDepth 100000 in
/-- Claim C4, counterexample: two invocations of the cache-wrapped
`analyze_email_content` with equal email records but on two different
live `AiService` instances (whose default `str(self)` reprs differ in
the memory address) derive different cache keys, because the bound
method's `self` is part of `args` in `generate_cache_key`. -/
theorem analyze_email_cache_key_instance_dependent :
    analyze_email_cache_key
      "<app.services.ai_service.AiService object at 0x7f3a2c1d4e50>"
      ⟨some 1, some "Quarterly report", some "The numbers are attached."⟩ ≠
    analyze_email_cache_key
      "<app.services.ai_service.AiService object at 0x7f3a2c1d4f90>"
      ⟨some 1, some "Quarterly report", some "The numbers are attached."⟩ := by
  decide

/-- Claim C4, amended: the derived cache key is a pure function of the
invoking instance's repr together with the email content — equal email
records on the same service instance always produce the same key, and
the key is exactly `generate_cache_key` applied to the method name with
`str(self)` and `str(email)` as positional arguments. -/
theorem analyze_email_cache_key_content_functional (self_repr : String)
    (e1 e2 : Email) (h : e1 = e2) :
    analyze_email_cache_key self_repr e1 =
      analyze_email_cache_key self_repr e2 ∧
    analyze_email_cache_key self_repr e1 =
      generate_cache_key "analyze_email_content"
        [self_repr, pyStrEmail e1] [] :=
  ⟨by rw [h], rfl⟩

/-- Witness for the amended C4 at a concrete repr and email. -/
theorem analyze_email_cache_key_content_functional_witness :
    analyze_email_cache_key
      "<app.services.ai_service.AiService object at 0x7f0000000010>"
      ⟨some 2, some "Hi", some "Hello"⟩ =
    analyze_email_cache_key
      "<app.services.ai_service.AiService object at 0x7f0000000010>"
      ⟨some 2, some "Hi", some "Hello"⟩ :=
  (analyze_email_cache_key_content_functional
    "<app.services.ai_service.AiService object at 0x7f0000000010>"
    ⟨some 2, some "Hi", some "Hello"⟩
    ⟨some 2, some "Hi", some "Hello"⟩ rfl).1

set_option maxRecDepth 100000 in
/-- Claim C5: `generate_cache_key` is deterministic and insensitive to
keyword-argument order — permuting the keyword association list never
changes the key — and on the claim's concrete inputs the keys for
kwargs a=1,b=2 agree across orderings while differing from a=1,b=3. -/
theorem generate_cache_key_deterministic (op : String) (args : List String)
    (k1 k2 : List (String × String)) (h : k1.Perm k2) :
    generate_cache_key op args k1 = generate_cache_key op args k2 ∧
    generate_cache_key "op" ["1", "2"] [("a", "1"), ("b", "2")] =
      generate_cache_key "op" ["1", "2"] [("b", "2"), ("a", "1")] ∧
    generate_cache_key "op" ["1", "2"] [("a", "1"), ("b", "2")] ≠
      generate_cache_key "op" ["1", "2"] [("a", "1"), ("b", "3")] := by
  refine ⟨?_, ?_, ?_⟩
  · simp only [generate_cache_key, sortedKwargs_perm_eq h]
  · decide
  · decide

/-- Witness for C5 at a concrete keyword permutation. -/
theorem generate_cache_key_deterministic_witness :
    generate_cache_key "op" ["x"] [("a", "1"), ("b", "2")] =
      generate_cache_key "op" ["x"] [("b", "2"), ("a", "1")] :=
  (generate_cache_key_deterministic "op" ["x"] [("a", "1"), ("b", "2")]
    [("b", "2"), ("a", "1")] (List.Perm.swap ("b", "2") ("a", "1") [])).1

/-- Claim C6: cache failures are never fatal — if the backing store
raises on lookup, or the lookup misses and the store step raises, or the
computed result fails JSON serialization, the wrapper still returns
exactly the value produced by the underlying computation and raises
nothing. -/
theorem cache_failure_not_fatal (β : Type) (enabled : Bool)
    (g : Except PyErr (Option String))
    (loadsOf : String → Except PyErr (Option β)) (computed : Option β)
    (dumps : Except PyErr String) (setex : Except PyErr Unit) (m : String) :
    (cache_wrapper enabled (Except.error (PyErr.redisError m)) loadsOf
        computed dumps setex = Except.ok computed) ∧
    (g = Except.ok none ∨ g = Except.ok (some "") →
      (cache_wrapper enabled g loadsOf computed dumps
          (Except.error (PyErr.redisError m)) = Except.ok computed) ∧
      (cache_wrapper enabled g loadsOf computed
          (Except.error (PyErr.typeError m)) setex = Except.ok computed) ∧
      (cache_wrapper enabled g loadsOf computed
          (Except.error (PyErr.valueError m)) setex = Except.ok computed)) := by
  refine ⟨?_, ?_⟩
  · cases enabled <;> simp [cache_wrapper]
  · rintro (rfl | rfl) <;>
      refine ⟨?_, ?_, ?_⟩ <;>
      cases enabled <;>
      rcases dumps with e | sv <;>
      (try cases e) <;>
      simp [cache_wrapper, storeAttempt, serialize_for_cache,
        isTypeOrValueError, isValueOrRedisError]

/-- Witness for C6 at concrete outcomes: an unreachable store on lookup,
and a miss followed by a store failure or a serialization failure. -/
theorem cache_failure_not_fatal_witness :
    (cache_wrapper true (Except.error (PyErr.redisError "connection refused"))
      (fun _ => Except.ok (none : Option Nat)) (some 7) (Except.ok "7")
      (Except.ok ()) = Except.ok (some 7)) ∧
    (cache_wrapper true (Except.ok (none : Option String))
      (fun _ => Except.ok (none : Option Nat)) (some 7) (Except.ok "7")
      (Except.error (PyErr.redisError "connection refused")) =
      Except.ok (some 7)) ∧
    (cache_wrapper true (Except.ok (none : Option String))
      (fun _ => Except.ok (none : Option Nat)) (some 7)
      (Except.error (PyErr.typeError "not serializable")) (Except.ok ()) =
      Except.ok (some 7)) :=
  have h := cache_failure_not_fatal Nat true (Except.ok none)
    (fun _ => Except.ok none) (some 7) (Except.ok "7") (Except.ok ())
    "connection refused"
  have h2 := cache_failure_not_fatal Nat true (Except.ok none)
    (fun _ => Except.ok none) (some 7)
    (Except.error (PyErr.typeError "not serializable")) (Except.ok ())
    "connection refused"
  ⟨h.1, (h.2 (Or.inl rfl)).1,
    have h3 := cache_failure_not_fatal Nat true (Except.ok none)
      (fun _ => Except.ok none) (some 7)
      (Except.error (PyErr.typeError "not serializable")) (Except.ok ())
      "not serializable"
    (h3.2 (Or.inl rfl)).2.1⟩

/-- Heads surviving `dropWhile` do not satisfy the dropped predicate. -/
theorem dropWhile_head_not (p : Char → Bool) (l : List Char) :
    ∀ a, (l.dropWhile p).head? = some a → p a = false := by
  induction l with
  | nil => intro a h; simp [List.dropWhile] at h
  | cons c t ih =>
    intro a h
    rw [List.dropWhile_cons] at h
    split at h
    · exact ih a h
    · rw [List.head?_cons, Option.some.injEq] at h
      subst h
      simp_all

/-- Claim C7: action-item and topic parsing follow the same line rule
(the two transcribed loops are extensionally equal); on the claim's
concrete model output the accepted, cleaned items are exactly
"Send the report" and "Call client"; and every produced item is
non-empty and starts with no bullet/number/punctuation character. -/
theorem action_topic_line_parsing :
    (∀ r : Except PyErr String, extract_action_items r = extract_topics r) ∧
    extract_action_items
      (Except.ok "- Send the report\n2. Call client\nNot a bullet") =
      ["Send the report", "Call client"] ∧
    (∀ content : String, ∀ item ∈ extract_action_items (Except.ok content),
      item ≠ "" ∧ ∀ c, item.toList.head? = some c → isBulletChar c = false) := by
  refine ⟨?_, ?_, ?_⟩
  · intro r
    cases r <;> rfl
  · decide
  · intro content item hmem
    simp only [extract_action_items, List.mem_filterMap] at hmem
    obtain ⟨rawLine, -, hf⟩ := hmem
    split at hf
    · by_cases hne : List.dropWhile isBulletChar (pyStrip rawLine) = []
      · rw [if_neg (by simp [hne])] at hf
        exact absurd hf (by simp)
      · rw [if_pos hne] at hf
        rw [Option.some.injEq] at hf
        subst hf
        constructor
        · intro h0
          apply hne
          have h1 := congrArg String.toList h0
          simpa using h1
        · intro c hc
          exact dropWhile_head_not isBulletChar (pyStrip rawLine) c hc
    · exact absurd hf (by simp)

/-- Witness for C7: the loops agree on a concrete response, and the
concrete item "Send the report" produced from the claim's input is
non-empty. -/
theorem action_topic_line_parsing_witness :
    extract_action_items (Except.ok "- a\nx") =
      extract_topics (Except.ok "- a\nx") ∧
    "Send the report" ≠ "" :=
  ⟨action_topic_line_parsing.1 (Except.ok "- a\nx"),
    (action_topic_line_parsing.2.2
      "- Send the report\n2. Call client\nNot a bullet"
      "Send the report" (by decide)).1⟩

/-- Claim C8, counterexample: `_categorize_email` performs no validation
of the model response against the taxonomy — a successful response
"Banana" yields `["Banana"]`, which is neither inside the 13-label
taxonomy nor the failure value `["Uncategorized"]`. -/
theorem categorize_email_escapes_taxonomy :
    categorize_email (Except.ok "Banana") = ["Banana"] ∧
    "Banana" ∉ taxonomy ∧
    categorize_email (Except.ok "Banana") ≠ ["Uncategorized"] := by
  decide

/-- Claim C8, amended: every string returned by the categorizer on a
successful call is a non-empty stripped comma-segment of the model
response (so the result lies inside the taxonomy exactly when the model
answers with taxonomy labels), and on failure the result is exactly
`["Uncategorized"]`. -/
theorem categorize_email_amended (content : String) (e : PyErr) :
    (∀ s ∈ categorize_email (Except.ok content), s ≠ "" ∧
      ∃ seg ∈ splitOnChar ',' content.toList, s = String.mk (pyStrip seg)) ∧
    ((∀ seg ∈ splitOnChar ',' content.toList,
        pyStrip seg = [] ∨ String.mk (pyStrip seg) ∈ taxonomy) →
      ∀ s ∈ categorize_email (Except.ok content), s ∈ taxonomy) ∧
    categorize_email (Except.error e) = ["Uncategorized"] := by
  refine ⟨?_, ?_, rfl⟩
  · intro s hs
    simp only [categorize_email, List.mem_filterMap] at hs
    obtain ⟨seg, hseg, hf⟩ := hs
    split at hf
    · exact absurd hf (by simp)
    · rw [Option.some.injEq] at hf
      subst hf
      refine ⟨?_, seg, hseg, rfl⟩
      intro h0
      have h1 := congrArg String.toList h0
      simp_all
  · intro htax s hs
    simp only [categorize_email, List.mem_filterMap] at hs
    obtain ⟨seg, hseg, hf⟩ := hs
    split at hf
    · exact absurd hf (by simp)
    · rw [Option.some.injEq] at hf
      subst hf
      rcases htax seg hseg with h | h
      · simp_all
      · exact h

/-- Witness for the amended C8 on a compliant concrete response and a
concrete failure. -/
theorem categorize_email_amended_witness :
    (∀ s ∈ categorize_email (Except.ok "Meeting, HR"), s ∈ taxonomy) ∧
    categorize_email (Except.error (PyErr.valueError "boom")) =
      ["Uncategorized"] :=
  have h := categorize_email_amended "Meeting, HR" (PyErr.valueError "boom")
  ⟨h.2.1 (by decide), h.2.2⟩

/-- Claim C9, counterexample: the deletion rule of `invalidate_cache` is
redis glob matching of the namespace plus the pattern plus `*`, not
literal prefix matching — for the metacharacter pattern "?" the stored
key "intellimail:cache:a" is deleted (count 1, store emptied) even
though its name does not begin with "intellimail:cache:?", refuting the
claim as stated for every pattern string. -/
theorem invalidate_cache_glob_not_literal :
    invalidate_cache false [("intellimail:cache:a", "v")] "?" = (1, []) ∧
    ("intellimail:cache:?").toList.isPrefixOf
      ("intellimail:cache:a").toList = false := by
  decide

/-- Claim C9, amended: `invalidate_cache` deletes exactly the stored
keys selected by redis glob matching of namespace + pattern + `*`,
returns their number, and returns 0 deleting nothing when no key
matches or when the store fails; for every glob-free pattern (one with
no `*`, `?`, `[`, `\x5c` character) that selection is exactly "key name
begins with the fixed namespace prefix followed by the pattern"; and on
the claim's concrete store the literal pattern "x" deletes exactly the
two "x"-keys and leaves the "y"-key intact. -/
theorem invalidate_cache_spec (store : List (String × String))
    (pat : String) :
    (invalidate_cache false store pat =
      ((store.filter fun kv => key_matches pat kv.1).length,
       store.filter fun kv => !(key_matches pat kv.1))) ∧
    (∀ kv, kv ∈ (invalidate_cache false store pat).2 ↔
      kv ∈ store ∧ key_matches pat kv.1 = false) ∧
    ((∀ c ∈ pat.toList, isGlobMeta c = false) → ∀ key : String,
      key_matches pat key =
        ("intellimail:cache:" ++ pat).toList.isPrefixOf key.toList) ∧
    ((∀ kv ∈ store, key_matches pat kv.1 = false) →
      invalidate_cache false store pat = (0, store)) ∧
    invalidate_cache true store pat = (0, store) ∧
    invalidate_cache false
      [("intellimail:cache:x:1", "v1"), ("intellimail:cache:x:2", "v2"),
       ("intellimail:cache:y:1", "v3")] "x" =
      (2, [("intellimail:cache:y:1", "v3")]) := by
  have hmain : invalidate_cache false store pat =
      ((store.filter fun kv => key_matches pat kv.1).length,
       store.filter fun kv => !(key_matches pat kv.1)) := by
    rcases hfil : store.filter fun kv => key_matches pat kv.1 with _ | ⟨kv0, rest⟩
    · have hall : ∀ kv ∈ store, ¬(key_matches pat kv.1 = true) :=
        List.filter_eq_nil_iff.mp hfil
      have hkeep : (store.filter fun kv => !(key_matches pat kv.1)) = store :=
        List.filter_eq_self.mpr fun kv hkv => by simp [hall kv hkv]
      simp [invalidate_cache, hfil, hkeep]
    · simp [invalidate_cache, hfil]
  refine ⟨hmain, ?_, ?_, ?_, by simp [invalidate_cache], by decide⟩
  · intro kv
    rw [hmain]
    simp [List.mem_filter]
  · intro hpat key
    exact key_matches_literal pat hpat key
  · intro h
    have hfil : (store.filter fun kv => key_matches pat kv.1) = [] :=
      List.filter_eq_nil_iff.mpr fun kv hkv => by simp [h kv hkv]
    have hkeep : (store.filter fun kv => !(key_matches pat kv.1)) = store :=
      List.filter_eq_self.mpr fun kv hkv => by simp [h kv hkv]
    rw [hmain, hfil, hkeep]
    rfl

/-- Witness for the amended C9: the literal-pattern characterization at
a concrete glob-free pattern and key, and concrete no-match and
store-failure invalidations. -/
theorem invalidate_cache_spec_witness :
    key_matches "x" "intellimail:cache:x:1" =
      ("intellimail:cache:" ++ "x").toList.isPrefixOf
        ("intellimail:cache:x:1").toList ∧
    invalidate_cache false [("intellimail:cache:y:1", "v")] "x" =
      (0, [("intellimail:cache:y:1", "v")]) ∧
    invalidate_cache true [("intellimail:cache:y:1", "v")] "x" =
      (0, [("intellimail:cache:y:1", "v")]) :=
  have h := invalidate_cache_spec [("intellimail:cache:y:1", "v")] "x"
  ⟨h.2.2.1 (by decide) "intellimail:cache:x:1", h.2.2.2.1 (by decide),
    h.2.2.2.2.1⟩

/-- Claim C10: with caching enabled, a lookup hit whose stored string
fails to decode as JSON makes the wrapper return Python `None` to the
caller without invoking the underlying function — the result is
independent of the wrapped computation. -/
theorem cache_hit_decode_failure_returns_none (β : Type) (s : String)
    (loadsOf : String → Except PyErr (Option β))
    (computed computed' : Option β) (dumps : Except PyErr String)
    (setex : Except PyErr Unit) (hs : s ≠ "")
    (hdec : loadsOf s = Except.error PyErr.jsonDecodeError) :
    cache_wrapper true (Except.ok (some s)) loadsOf computed dumps setex =
      Except.ok none ∧
    cache_wrapper true (Except.ok (some s)) loadsOf computed dumps setex =
      cache_wrapper true (Except.ok (some s)) loadsOf computed' dumps
        setex := by
  have key : ∀ c : Option β,
      cache_wrapper true (Except.ok (some s)) loadsOf c dumps setex =
        Except.ok none := by
    intro c
    simp [cache_wrapper, hs, hdec, deserialize_from_cache]
  exact ⟨key computed, (key computed).trans (key computed').symm⟩

/-- Witness for C10: a concrete hit whose payload fails decoding yields
`None` regardless of the computed value. -/
theorem cache_hit_decode_failure_returns_none_witness :
    cache_wrapper true (Except.ok (some "not json"))
      (fun _ => Except.error PyErr.jsonDecodeError) (some 7) (Except.ok "7")
      (Except.ok ()) = Except.ok (none : Option Nat) ∧
    cache_wrapper true (Except.ok (some "not json"))
      (fun _ => Except.error PyErr.jsonDecodeError) (some 7) (Except.ok "7")
      (Except.ok ()) =
    cache_wrapper true (Except.ok (some "not json"))
      (fun _ => Except.error PyErr.jsonDecodeError) (none : Option Nat)
      (Except.ok "7") (Except.ok ()) :=
  cache_hit_decode_failure_returns_none Nat "not json"
    (fun _ => Except.error PyErr.jsonDecodeError) (some 7) none
    (Except.ok "7") (Except.ok ()) (by decide) rfl
